import Mathlib

/-!
Verification of the MCP date server (`6_mcp/mcp_date_server.py`).

The server exposes two tools over MCP: `get_current_date` and
`get_date_with_format`.  We shallowly embed the two request handlers,
`list_tools` and `call_tool`, together with the parts of the Python
runtime they rely on:

* Python values bound in the `arguments` dictionary (`PyValue`),
  with `dict.get` modelled by `dictGet`;
* `datetime.strftime`, modelled by `strftime`.  CPython validates the
  format string before rendering on the builds that pre-scan formats
  (Windows / AIX / Solaris paths of `Modules/timemodule.c`): a `%` must
  be followed by a supported directive character, otherwise a
  `ValueError "Invalid format string"` is raised.  That pre-scan is the
  rendering-engine rejection behaviour the repository relies on in its
  `except ValueError` branch, and it is what `fmtCheck` embeds.  The
  rendering itself (`renderFmt`) follows the C-locale output of the
  directives.
* exceptions: only `ValueError` and `TypeError` can arise in the code
  paths of `call_tool`, collected in `PyExc`; a raised exception is an
  `Except.error` escaping `call_tool`.

The clock (`datetime.now()`) is passed explicitly as a `DateTime`
argument; a single invocation reads the clock once per branch exactly as
the Python code does.
-/

namespace McpDateServer

/-- Python values that can appear in the `arguments` mapping of a
`call_tool` request. -/
inductive PyValue where
  | str (s : String)
  | int (n : Int)
  | bool (b : Bool)
  | none
deriving DecidableEq

/-- The Python type name used in the `TypeError` message raised by
`datetime.strftime` when its argument is not a string. -/
def pyTypeName : PyValue → String
  | PyValue.str _ => "str"
  | PyValue.int _ => "int"
  | PyValue.bool _ => "bool"
  | PyValue.none => "None"

/-- Whether a Python value is a `str`. -/
def isStr : PyValue → Bool
  | PyValue.str _ => true
  | _ => false

/-- Exceptions that can be raised on the code paths of `call_tool`. -/
inductive PyExc where
  | valueError (msg : String)
  | typeError (msg : String)
deriving DecidableEq

/-- Model of `mcp.types.TextContent`: a content item with a `type` tag and text. -/
structure TextContent where
  type : String
  text : String
deriving DecidableEq

/-- Schema of one property inside an `inputSchema`. -/
structure PropertySchema where
  type : String
  description : String
  default : Option String
deriving DecidableEq

/-- The JSON-schema object advertised as a tool input schema. -/
structure InputSchema where
  type : String
  properties : List (String × PropertySchema)
  required : List String
  additionalProperties : Bool
deriving DecidableEq

/-- Model of `mcp.types.Tool`: a tool descriptor. -/
structure Tool where
  name : String
  description : String
  inputSchema : InputSchema
deriving DecidableEq

/-- A naive `datetime` value as produced by `datetime.now()`. -/
structure DateTime where
  year : Nat
  month : Nat
  day : Nat
  hour : Nat
  minute : Nat
  second : Nat
  microsecond : Nat
deriving DecidableEq

/-- The field bounds guaranteed by Python `datetime` (`MINYEAR = 1`,
`MAXYEAR = 9999`). -/
def DateTime.Valid (t : DateTime) : Prop :=
  1 ≤ t.year ∧ t.year ≤ 9999 ∧
  1 ≤ t.month ∧ t.month ≤ 12 ∧
  1 ≤ t.day ∧ t.day ≤ 31 ∧
  t.hour ≤ 23 ∧ t.minute ≤ 59 ∧ t.second ≤ 59 ∧ t.microsecond ≤ 999999

instance (t : DateTime) : Decidable t.Valid := by
  unfold DateTime.Valid; infer_instance

/-- Total order key of a datetime: seconds-resolution lexicographic
encoding of (year, month, day, hour, minute, second). -/
def dtKey (t : DateTime) : Nat :=
  ((((t.year * 13 + t.month) * 32 + t.day) * 24 + t.hour) * 60 + t.minute) * 60
    + t.second

/-- Truncation of `dtKey` to minute resolution. -/
def dtKeyMin (t : DateTime) : Nat :=
  (((t.year * 13 + t.month) * 32 + t.day) * 24 + t.hour) * 60 + t.minute

/-- Decimal digit characters of a natural number, most significant
first (fuel-based so that it is structurally recursive; fuel `n + 1`
always suffices). -/
def natDecAux : Nat → Nat → List Char
  | 0, _ => []
  | fuel + 1, n =>
    if n < 10 then [Nat.digitChar n]
    else natDecAux fuel (n / 10) ++ [Nat.digitChar (n % 10)]

/-- Decimal rendering of a natural number as a character list. -/
def natDec (n : Nat) : List Char :=
  natDecAux (n + 1) n

/-- Zero-pad a decimal rendering on the left to width `w`. -/
def padNum (w n : Nat) : List Char :=
  List.replicate (w - (natDec n).length) '0' ++ natDec n

/-- Two-digit zero-padded rendering (strftime `%d`, `%m`, `%H`, `%I`,
`%M`, `%S`, `%y`). -/
def pad2 (n : Nat) : List Char := padNum 2 n

/-- Space-pad a day-of-month to width two (strftime `%e`, used inside
the C-locale `%c`). -/
def padSp2 (n : Nat) : List Char :=
  if n < 10 then ' ' :: natDec n else natDec n

/-- Full month names of the C locale (strftime `%B`); month numbers are
1-based. -/
def monthName : Nat → List Char
  | 1 => ['J', 'a', 'n', 'u', 'a', 'r', 'y']
  | 2 => ['F', 'e', 'b', 'r', 'u', 'a', 'r', 'y']
  | 3 => ['M', 'a', 'r', 'c', 'h']
  | 4 => ['A', 'p', 'r', 'i', 'l']
  | 5 => ['M', 'a', 'y']
  | 6 => ['J', 'u', 'n', 'e']
  | 7 => ['J', 'u', 'l', 'y']
  | 8 => ['A', 'u', 'g', 'u', 's', 't']
  | 9 => ['S', 'e', 'p', 't', 'e', 'm', 'b', 'e', 'r']
  | 10 => ['O', 'c', 't', 'o', 'b', 'e', 'r']
  | 11 => ['N', 'o', 'v', 'e', 'm', 'b', 'e', 'r']
  | 12 => ['D', 'e', 'c', 'e', 'm', 'b', 'e', 'r']
  | _ => []

/-- Abbreviated month names (strftime `%b`). -/
def monthAbbr : Nat → List Char
  | 1 => "Jan".data
  | 2 => "Feb".data
  | 3 => "Mar".data
  | 4 => "Apr".data
  | 5 => "May".data
  | 6 => "Jun".data
  | 7 => "Jul".data
  | 8 => "Aug".data
  | 9 => "Sep".data
  | 10 => "Oct".data
  | 11 => "Nov".data
  | 12 => "Dec".data
  | _ => []

/-- Abbreviated weekday names, indexed with 0 = Sunday (strftime `%a`). -/
def weekdayAbbr : Nat → List Char
  | 0 => "Sun".data
  | 1 => "Mon".data
  | 2 => "Tue".data
  | 3 => "Wed".data
  | 4 => "Thu".data
  | 5 => "Fri".data
  | 6 => "Sat".data
  | _ => []

/-- Full weekday names, indexed with 0 = Sunday (strftime `%A`). -/
def weekdayFull : Nat → List Char
  | 0 => "Sunday".data
  | 1 => "Monday".data
  | 2 => "Tuesday".data
  | 3 => "Wednesday".data
  | 4 => "Thursday".data
  | 5 => "Friday".data
  | 6 => "Saturday".data
  | _ => []

/-- Gregorian leap-year rule. -/
def isLeap (y : Nat) : Bool :=
  (y % 4 == 0 && !(y % 100 == 0)) || (y % 400 == 0)

/-- Days in a month (1-based month number). -/
def monthDays (leap : Bool) : Nat → Nat
  | 1 => 31
  | 2 => if leap then 29 else 28
  | 3 => 31
  | 4 => 30
  | 5 => 31
  | 6 => 30
  | 7 => 31
  | 8 => 31
  | 9 => 30
  | 10 => 31
  | 11 => 30
  | 12 => 31
  | _ => 0

/-- Days in the year strictly before the 1-based month `m`. -/
def daysBefore (leap : Bool) (m : Nat) : Nat :=
  (List.range (m - 1)).foldl (fun a i => a + monthDays leap (i + 1)) 0

/-- Day of the year, 1-based (strftime `%j`). -/
def dayOfYear (t : DateTime) : Nat :=
  daysBefore (isLeap t.year) t.month + t.day

/-- Day of week, 0 = Sunday, by the Sakamoto congruence (strftime `%w`). -/
def dow (t : DateTime) : Nat :=
  let tab := [0, 3, 2, 5, 0, 3, 5, 1, 4, 6, 2, 4]
  let y := if t.month < 3 then t.year - 1 else t.year
  (y + y / 4 - y / 100 + y / 400 + tab.getD (t.month - 1) 0 + t.day) % 7

/-- Twelve-hour clock hour (strftime `%I`): hours `0` and `12` render as
`12`. -/
def hour12 (h : Nat) : Nat :=
  if h % 12 = 0 then 12 else h % 12

/-- Output of one strftime directive character in the C locale.
`%z` and `%Z` are empty for the naive datetimes produced by
`datetime.now()`. -/
def dirOut (c : Char) (t : DateTime) : List Char :=
  if c = 'Y' then natDec t.year
  else if c = 'y' then pad2 (t.year % 100)
  else if c = 'm' then pad2 t.month
  else if c = 'd' then pad2 t.day
  else if c = 'H' then pad2 t.hour
  else if c = 'I' then pad2 (hour12 t.hour)
  else if c = 'M' then pad2 t.minute
  else if c = 'S' then pad2 t.second
  else if c = 'f' then padNum 6 t.microsecond
  else if c = 'B' then monthName t.month
  else if c = 'b' then monthAbbr t.month
  else if c = 'a' then weekdayAbbr (dow t)
  else if c = 'A' then weekdayFull (dow t)
  else if c = 'w' then [Nat.digitChar (dow t)]
  else if c = 'j' then padNum 3 (dayOfYear t)
  else if c = 'U' then pad2 ((dayOfYear t - 1 + 7 - dow t) / 7)
  else if c = 'W' then pad2 ((dayOfYear t - 1 + 7 - (dow t + 6) % 7) / 7)
  else if c = 'p' then (if t.hour < 12 then ['A', 'M'] else ['P', 'M'])
  else if c = 'x' then
    pad2 t.month ++ '/' :: pad2 t.day ++ '/' :: pad2 (t.year % 100)
  else if c = 'X' then
    pad2 t.hour ++ ':' :: pad2 t.minute ++ ':' :: pad2 t.second
  else if c = 'c' then
    weekdayAbbr (dow t) ++ ' ' :: monthAbbr t.month ++ ' ' :: padSp2 t.day
      ++ ' ' :: pad2 t.hour ++ ':' :: pad2 t.minute ++ ':' :: pad2 t.second
      ++ ' ' :: natDec t.year
  else if c = '%' then ['%']
  else ['%', c]

/-- Directive characters accepted by the CPython format pre-scan
(`%f`, `%z`, `%Z` are substituted by `datetime` itself before the
scan). -/
def validDir (c : Char) : Bool :=
  c ∈ ['a', 'A', 'b', 'B', 'c', 'd', 'f', 'H', 'I', 'j', 'm', 'M', 'p',
       'S', 'U', 'w', 'W', 'x', 'X', 'y', 'Y', 'z', 'Z', '%']

/-- CPython strftime format pre-scan: every `%` must be followed by a
valid directive character; a format is rejected otherwise (in
particular a format ending in a lone `%`). -/
def fmtCheck : List Char → Bool
  | [] => true
  | c :: rest =>
    if c = '%' then
      match rest with
      | [] => false
      | d :: rest2 => validDir d && fmtCheck rest2
    else fmtCheck rest

/-- Render a (pre-scanned) strftime format against a datetime. -/
def renderFmt : List Char → DateTime → List Char
  | [], _ => []
  | c :: rest, t =>
    if c = '%' then
      match rest with
      | [] => ['%']
      | d :: rest2 => dirOut d t ++ renderFmt rest2 t
    else c :: renderFmt rest t

/-- Model of `datetime.strftime` on a CPython build with the format pre-scan: an
invalid format raises `ValueError "Invalid format string"`; a valid one
renders in the C locale. -/
def strftime (fmt : String) (t : DateTime) : Except PyExc String :=
  if fmtCheck fmt.data then Except.ok (String.mk (renderFmt fmt.data t))
  else Except.error (PyExc.valueError "Invalid format string")

/-- Python `dict` lookup (`arguments` has unique keys; the embedding
keeps the first binding). -/
def dictFind : List (String × PyValue) → String → Option PyValue
  | [], _ => Option.none
  | (k, v) :: rest, key => if k = key then some v else dictFind rest key

/-- Python `dict.get(key, default)`. -/
def dictGet (args : List (String × PyValue)) (key : String) (d : PyValue) :
    PyValue :=
  match dictFind args key with
  | some v => v
  | Option.none => d

/-- The default format string of `get_date_with_format`. -/
def defaultFmt : String := "%Y-%m-%d %H:%M:%S"

/-- The fixed format string used by `get_current_date`. -/
def currentFmt : String := "%B %d, %Y at %I:%M %p"

/-- Embedding of the `list_tools` handler.  The Python function takes
no arguments and reads no state; the `Unit` argument mirrors one call. -/
def list_tools : Unit → List Tool := fun _ =>
  [ { name := "get_current_date"
    , description :=
        "Get the current date and time.\n\n    Returns:\n        The current date and time in a human-readable format"
    , inputSchema :=
      { type := "object"
      , properties := []
      , required := []
      , additionalProperties := false } }
  , { name := "get_date_with_format"
    , description :=
        "Get the current date with a specific format.\n\n    Args:\n        format: The format string (e.g., \x27%Y-%m-%d\x27, \x27%B %d, %Y\x27)"
    , inputSchema :=
      { type := "object"
      , properties :=
          [ ("format"
            , { type := "string"
              , description := "The datetime format string"
              , default := some "%Y-%m-%d %H:%M:%S" }) ]
      , required := []
      , additionalProperties := false } } ]

/-- Body of the `get_date_with_format` branch of `call_tool` as a
function of the value fetched for `"format"`: a `str` is rendered inside
`try: ... except ValueError`, which converts only a `ValueError` into
text content; a non-`str` makes `strftime` raise a `TypeError`, which no
handler catches. -/
def fmtBranch (v : PyValue) (t : DateTime) : Except PyExc (List TextContent) :=
  match v with
  | PyValue.str fs =>
    match strftime fs t with
    | Except.ok s => Except.ok [{ type := "text", text := s }]
    | Except.error (PyExc.valueError m) =>
      Except.ok
        [{ type := "text", text := "Error: Invalid format string - " ++ m }]
    | Except.error e => Except.error e
  | v =>
    Except.error
      (PyExc.typeError ("strftime() argument 1 must be str, not "
        ++ pyTypeName v))

/-- Embedding of the `call_tool` handler.  `t` is the value read from
the wall clock (`datetime.now()`) during the call; a raised exception
that escapes the handler is an `Except.error`. -/
def call_tool (name : String) (args : List (String × PyValue))
    (t : DateTime) : Except PyExc (List TextContent) :=
  if name = "get_current_date" then
    match strftime currentFmt t with
    | Except.ok s =>
      Except.ok [{ type := "text", text := "Current date and time: " ++ s }]
    | Except.error e => Except.error e
  else if name = "get_date_with_format" then
    fmtBranch (dictGet args "format" (PyValue.str defaultFmt)) t
  else
    Except.ok
      [{ type := "text"
       , text := "Error: Unknown tool \x27" ++ name ++ "\x27" }]

/-!
Formalisation devices for the testable properties: an executable
recogniser for the regular expressions of the spec and an executable
parser that recovers the timestamp embedded in the long-form output of
`get_current_date`.
-/

/-- Strip the exact character sequence `pat` from the front of `cs`. -/
def stripLead : List Char → List Char → Option (List Char)
  | [], cs => some cs
  | p :: ps, c :: cs => if p = c then stripLead ps cs else Option.none
  | _ :: _, [] => Option.none

/-- Read exactly two decimal digits as a number. -/
def parse2 : List Char → Option (Nat × List Char)
  | a :: b :: rest =>
    if a.isDigit && b.isDigit then
      some ((a.toNat - 48) * 10 + (b.toNat - 48), rest)
    else Option.none
  | _ => Option.none

/-- Value of a sequence of decimal digit characters. -/
def digitsVal (cs : List Char) : Nat :=
  cs.foldl (fun a c => a * 10 + (c.toNat - 48)) 0

/-- Month names together with their 1-based month numbers, in calendar
order. -/
def monthTable : List (Nat × List Char) :=
  [(1, monthName 1), (2, monthName 2), (3, monthName 3), (4, monthName 4),
   (5, monthName 5), (6, monthName 6), (7, monthName 7), (8, monthName 8),
   (9, monthName 9), (10, monthName 10), (11, monthName 11),
   (12, monthName 12)]

/-- Find which month name the input starts with. -/
def matchMonthAux : List (Nat × List Char) → List Char →
    Option (Nat × List Char)
  | [], _ => Option.none
  | (m, nm) :: rest, cs =>
    match stripLead nm cs with
    | some tail => some (m, tail)
    | Option.none => matchMonthAux rest cs

/-- Parse `" DD, YYYY at II:MM AP"` after a month name `m`: a 2-digit
day, a comma, a 4-digit year, `" at "`, a 12-hour time and an AM/PM
marker.  Returns `(year, month, day, hour24, minute)`. -/
def parseRest (m : Nat) : List Char → Option (Nat × Nat × Nat × Nat × Nat)
  | ' ' :: r2 =>
    match parse2 r2 with
    | some (d, ',' :: ' ' :: r3) =>
      if (r3.takeWhile Char.isDigit).length = 4 then
        match r3.dropWhile Char.isDigit with
        | ' ' :: 'a' :: 't' :: ' ' :: r5 =>
          match parse2 r5 with
          | some (h12, ':' :: r6) =>
            match parse2 r6 with
            | some (mi, [' ', 'A', 'M']) =>
              some (digitsVal (r3.takeWhile Char.isDigit), m, d, h12 % 12, mi)
            | some (mi, [' ', 'P', 'M']) =>
              some (digitsVal (r3.takeWhile Char.isDigit), m, d,
                    h12 % 12 + 12, mi)
            | _ => Option.none
          | _ => Option.none
        | _ => Option.none
      else Option.none
    | _ => Option.none
  | _ => Option.none

/-- Recognise the fixed long form `month name, 2-digit day, comma,
4-digit year, " at ", 12-hour clock time, AM/PM marker` and return the
timestamp it carries as `(year, month, day, hour24, minute)`. -/
def parseLong (cs : List Char) : Option (Nat × Nat × Nat × Nat × Nat) :=
  match matchMonthAux monthTable cs with
  | some (m, r1) => parseRest m r1
  | Option.none => Option.none

/-- Extract the timestamp embedded in a `get_current_date` result item:
the fixed sentence lead-in followed by the long-form timestamp. -/
def embedTime (s : String) : Option (Nat × Nat × Nat × Nat × Nat) :=
  match stripLead ("Current date and time: ".data) s.data with
  | some r => parseLong r
  | Option.none => Option.none

/-- Minute-resolution chronological key of an embedded timestamp. -/
def embKey : Nat × Nat × Nat × Nat × Nat → Nat
  | (y, m, d, h, mi) => (((y * 13 + m) * 32 + d) * 24 + h) * 60 + mi

/-- The regex `^\d\x7b4\x7d-\d\x7b2\x7d-\d\x7b2\x7d$` as an executable
recogniser. -/
def isYMD : List Char → Bool
  | [a, b, c, d, '-', e, f, '-', g, h] =>
    a.isDigit && b.isDigit && c.isDigit && d.isDigit && e.isDigit &&
    f.isDigit && g.isDigit && h.isDigit
  | _ => false

/-- The regex `^\d\x7b4\x7d-\d\x7b2\x7d-\d\x7b2\x7d \d\x7b2\x7d:\d\x7b2\x7d:\d\x7b2\x7d$`
as an executable recogniser. -/
def isYMDHMS : List Char → Bool
  | [a, b, c, d, '-', e, f, '-', g, h, ' ', i, j, ':', k, l, ':', m, n] =>
    a.isDigit && b.isDigit && c.isDigit && d.isDigit && e.isDigit &&
    f.isDigit && g.isDigit && h.isDigit && i.isDigit && j.isDigit &&
    k.isDigit && l.isDigit && m.isDigit && n.isDigit
  | _ => false

/-- A fixed clock reading used to instantiate universally quantified
theorems at a concrete input. -/
def sampleTime : DateTime :=
  { year := 2026, month := 10, day := 12, hour := 15, minute := 30,
    second := 45, microsecond := 123456 }

/-! ## Helper lemmas -/

theorem digitChar_isDigit {k : Nat} (h : k < 10) :
    (Nat.digitChar k).isDigit = true := by
  interval_cases k <;> decide

theorem digitChar_val {k : Nat} (h : k < 10) :
    (Nat.digitChar k).toNat - 48 = k := by
  interval_cases k <;> decide

theorem natDecAux_small (f n : Nat) (h : n < 10) :
    natDecAux (f + 1) n = [Nat.digitChar n] := by
  simp [natDecAux, h]

theorem natDecAux_step (f n : Nat) (h : ¬ n < 10) :
    natDecAux (f + 1) n = natDecAux f (n / 10) ++ [Nat.digitChar (n % 10)] := by
  simp [natDecAux, h]

theorem natDecAux_fuel (n : Nat) : ∀ f g, n < f → n < g →
    natDecAux f n = natDecAux g n := by
  induction n using Nat.strong_induction_on with
  | _ n ih =>
    intro f g hf hg
    obtain ⟨f1, rfl⟩ : ∃ f1, f = f1 + 1 := ⟨f - 1, by omega⟩
    obtain ⟨g1, rfl⟩ : ∃ g1, g = g1 + 1 := ⟨g - 1, by omega⟩
    by_cases h : n < 10
    · rw [natDecAux_small f1 n h, natDecAux_small g1 n h]
    · rw [natDecAux_step f1 n h, natDecAux_step g1 n h,
        ih (n / 10) (by omega) f1 g1 (by omega) (by omega)]

theorem natDec_eq (n : Nat) : natDec n = natDecAux (n + 1) n := rfl

theorem natDec_small {n : Nat} (h : n < 10) : natDec n = [Nat.digitChar n] :=
  natDecAux_small n n h

theorem pad2_eq {n : Nat} (h : n < 100) :
    pad2 n = [Nat.digitChar (n / 10), Nat.digitChar (n % 10)] := by
  by_cases h10 : n < 10
  · have h1 : natDec n = [Nat.digitChar n] := natDec_small h10
    have h0 : n / 10 = 0 := by omega
    have hm : n % 10 = n := by omega
    rw [pad2, padNum, h1, h0, hm]
    simp [List.replicate, show Nat.digitChar 0 = '0' from rfl]
  · have h1 : natDec n = [Nat.digitChar (n / 10), Nat.digitChar (n % 10)] := by
      rw [natDec_eq, natDecAux_step n n h10,
        natDecAux_fuel (n / 10) n (n / 10 + 1) (by omega) (by omega),
        natDecAux_small (n / 10) (n / 10) (by omega)]
      rfl
    rw [pad2, padNum, h1]
    simp

theorem natDec4 {y : Nat} (h1 : 1000 ≤ y) (h2 : y ≤ 9999) :
    natDec y = [Nat.digitChar (y / 1000), Nat.digitChar (y / 100 % 10),
                Nat.digitChar (y / 10 % 10), Nat.digitChar (y % 10)] := by
  rw [natDec_eq, natDecAux_step y y (by omega),
    natDecAux_fuel (y / 10) y (y / 10 + 1) (by omega) (by omega),
    natDecAux_step (y / 10) (y / 10) (by omega),
    show y / 10 / 10 = y / 100 from by omega,
    natDecAux_fuel (y / 100) (y / 10) (y / 100 + 1) (by omega) (by omega),
    natDecAux_step (y / 100) (y / 100) (by omega),
    show y / 100 / 10 = y / 1000 from by omega,
    natDecAux_fuel (y / 1000) (y / 100) (y / 1000 + 1) (by omega) (by omega),
    natDecAux_small (y / 1000) (y / 1000) (by omega)]
  simp

theorem parse2_pad2 {n : Nat} (h : n < 100) (rest : List Char) :
    parse2 (pad2 n ++ rest) = some (n, rest) := by
  rw [pad2_eq h]
  have h1 := digitChar_isDigit (show n / 10 < 10 by omega)
  have h2 := digitChar_isDigit (show n % 10 < 10 by omega)
  have h3 := digitChar_val (show n / 10 < 10 by omega)
  have h4 := digitChar_val (show n % 10 < 10 by omega)
  simp [parse2, h1, h2, h3, h4]
  omega

theorem takeWhile_digits (cs : List Char) (hcs : ∀ c ∈ cs, c.isDigit = true)
    (c0 : Char) (h0 : c0.isDigit = false) (rest : List Char) :
    (cs ++ c0 :: rest).takeWhile Char.isDigit = cs ∧
    (cs ++ c0 :: rest).dropWhile Char.isDigit = c0 :: rest := by
  induction cs with
  | nil => simp [List.takeWhile_cons, List.dropWhile_cons, h0]
  | cons a l ih =>
    have ha : a.isDigit = true := hcs a (by simp)
    obtain ⟨ih1, ih2⟩ := ih (fun c hc => hcs c (by simp [hc]))
    refine ⟨?_, ?_⟩
    · rw [List.cons_append, List.takeWhile_cons_of_pos (by simp [ha]), ih1]
    · rw [List.cons_append, List.dropWhile_cons_of_pos (by simp [ha])]
      exact ih2

theorem hour12_lt (h : Nat) : hour12 h < 100 := by
  unfold hour12; split <;> omega

theorem parseRest_render (m y d h mi : Nat) (hy1 : 1000 ≤ y) (hy2 : y ≤ 9999)
    (hd : d < 100) (hh : h ≤ 23) (hmi : mi < 100) :
    parseRest m (' ' :: (pad2 d ++ (',' :: (' ' :: (natDec y ++ (' ' :: ('a' :: ('t' :: (' ' :: (pad2 (hour12 h) ++ (':' :: (pad2 mi ++ (' ' :: (if h < 12 then ['A', 'M'] else ['P', 'M'])))))))))))))) = some (y, m, d, h, mi) := by
  have k1 : (y / 1000 : Nat) < 10 := by omega
  have k2 : (y / 100 % 10 : Nat) < 10 := by omega
  have k3 : (y / 10 % 10 : Nat) < 10 := by omega
  have k4 : (y % 10 : Nat) < 10 := by omega
  have hdig : ∀ c ∈ [Nat.digitChar (y / 1000), Nat.digitChar (y / 100 % 10),
      Nat.digitChar (y / 10 % 10), Nat.digitChar (y % 10)],
      c.isDigit = true := by
    intro c hc
    simp only [List.mem_cons, List.not_mem_nil, or_false] at hc
    rcases hc with rfl | rfl | rfl | rfl
    · exact digitChar_isDigit k1
    · exact digitChar_isDigit k2
    · exact digitChar_isDigit k3
    · exact digitChar_isDigit k4
  obtain ⟨htw, hdw⟩ := takeWhile_digits _ hdig ' ' (by decide)
    ('a' :: ('t' :: (' ' :: (pad2 (hour12 h) ++ (':' :: (pad2 mi ++ (' ' :: (if h < 12 then ['A', 'M'] else ['P', 'M']))))))))
  simp only [parseRest, parse2_pad2 hd, natDec4 hy1 hy2, htw, hdw,
    parse2_pad2 (hour12_lt h), parse2_pad2 hmi, List.length_cons,
    List.length_nil]
  by_cases hlt : h < 12
  · simp only [if_pos hlt]
    simp [digitsVal, digitChar_val k1, digitChar_val k2, digitChar_val k3,
      digitChar_val k4]
    constructor
    · omega
    · unfold hour12; split <;> omega
  · simp only [if_neg hlt]
    simp [digitsVal, digitChar_val k1, digitChar_val k2, digitChar_val k3,
      digitChar_val k4]
    constructor
    · omega
    · unfold hour12; split <;> omega

theorem renderCur (t : DateTime) : renderFmt currentFmt.data t =
    monthName t.month ++ (' ' :: (pad2 t.day ++ (',' :: (' ' :: (natDec t.year ++ (' ' :: ('a' :: ('t' :: (' ' :: (pad2 (hour12 t.hour) ++ (':' :: (pad2 t.minute ++ (' ' :: ((if t.hour < 12 then ['A', 'M'] else ['P', 'M']) ++ [])))))))))))))) := rfl

theorem parseLong_render (t : DateTime) (hv : t.Valid) (hy : 1000 ≤ t.year) :
    parseLong (renderFmt currentFmt.data t) =
      some (t.year, t.month, t.day, t.hour, t.minute) := by
  obtain ⟨y, mo, d, h, mi, sec, us⟩ := t
  obtain ⟨b1, b2, b3, b4, b5, b6, b7, b8, b9, b10⟩ := hv
  simp only at b1 b2 b3 b4 b5 b6 b7 b8 b9 b10 hy
  rw [renderCur]
  simp only
  have hrest := parseRest_render mo y d h mi hy b2 (by omega) b7 (by omega)
  interval_cases mo <;>
    simp [parseLong, monthTable, monthName, matchMonthAux, stripLead, hrest]

theorem stripLead_append (xs ys : List Char) : stripLead xs (xs ++ ys) = some ys := by
  induction xs with
  | nil => rfl
  | cons a l ih => simp [stripLead, ih]

theorem embedTime_render (t : DateTime) (hv : t.Valid) (hy : 1000 ≤ t.year) :
    embedTime ("Current date and time: " ++ String.mk (renderFmt currentFmt.data t)) =
      some (t.year, t.month, t.day, t.hour, t.minute) := by
  unfold embedTime
  rw [String.data_append]
  simp [stripLead, parseLong_render t hv hy,
    show (String.mk (renderFmt currentFmt.data t)).data = renderFmt currentFmt.data t from rfl]

theorem call_tool_fmt (args : List (String × PyValue)) (t : DateTime) :
    call_tool "get_date_with_format" args t =
      fmtBranch (dictGet args "format" (PyValue.str defaultFmt)) t := rfl

theorem call_tool_cur (args : List (String × PyValue)) (t : DateTime) :
    call_tool "get_current_date" args t =
      Except.ok [{ type := "text", text := "Current date and time: " ++ String.mk (renderFmt currentFmt.data t) }] := rfl

theorem dictGet_none {args : List (String × PyValue)} {k : String}
    {d : PyValue} (h : dictFind args k = Option.none) : dictGet args k d = d := by
  unfold dictGet
  rw [h]

theorem fmtBranch_shape (v : PyValue) (t : DateTime) (r : List TextContent)
    (h : fmtBranch v t = Except.ok r) :
    ∃ s, r = [{ type := "text", text := s }] := by
  cases v with
  | str fs =>
    simp only [fmtBranch] at h
    cases hst : strftime fs t with
    | ok s =>
      rw [hst] at h
      simp only [Except.ok.injEq] at h
      exact ⟨s, h.symm⟩
    | error e =>
      rw [hst] at h
      cases e with
      | valueError m =>
        simp only [Except.ok.injEq] at h
        exact ⟨_, h.symm⟩
      | typeError m => simp at h
  | int n => simp [fmtBranch] at h
  | bool b => simp [fmtBranch] at h
  | none => simp [fmtBranch] at h

/-! ## Claim theorems -/

/-- C1: for every tool name other than the two registered ones and every
argument map, `call_tool` returns normally (no raised exception) with a
single text item whose text reports Unknown tool <name> for that
name — carried as payload content with the `Error: ` lead-in, not as a
protocol failure. -/
theorem c1_unknown_tool_payload (name : String)
    (args : List (String × PyValue)) (t : DateTime)
    (h1 : name ≠ "get_current_date") (h2 : name ≠ "get_date_with_format") :
    call_tool name args t =
      Except.ok [{ type := "text", text := "Error: Unknown tool \x27" ++ name ++ "\x27" }]
    ∧ "Error: Unknown tool \x27" ++ name ++ "\x27" =
      "Error: " ++ ("Unknown tool \x27" ++ name ++ "\x27") := by
  refine ⟨?_, ?_⟩
  · unfold call_tool
    rw [if_neg h1, if_neg h2]
  · have e : ("Error: Unknown tool \x27" : String).data =
        ("Error: " : String).data ++ ("Unknown tool \x27" : String).data := rfl
    apply String.ext
    simp [String.data_append, e, List.append_assoc]

theorem c1_witness :
    ("weather" : String) ≠ "get_current_date" ∧
    call_tool "weather" [] sampleTime =
      Except.ok [{ type := "text", text := "Error: Unknown tool \x27weather\x27" }] := by
  refine ⟨by decide, ?_⟩
  rw [(c1_unknown_tool_payload "weather" [] sampleTime (by decide) (by decide)).1]
  rfl

/-- C2: whenever the `"format"` argument of `get_date_with_format` is a
string rejected by the format scan of the rendering engine, `call_tool`
returns normally with a single text item that starts with `Error:` and
carries the underlying parse error message. -/
theorem c2_invalid_format_text (args : List (String × PyValue))
    (t : DateTime) (fmt : String)
    (hv : dictGet args "format" (PyValue.str defaultFmt) = PyValue.str fmt)
    (hbad : fmtCheck fmt.data = false) :
    call_tool "get_date_with_format" args t =
      Except.ok [{ type := "text", text := "Error: Invalid format string - " ++ "Invalid format string" }]
    ∧ ("Error: Invalid format string - " ++ "Invalid format string" : String) =
      "Error:" ++ " Invalid format string - Invalid format string" := by
  refine ⟨?_, rfl⟩
  rw [call_tool_fmt args t, hv]
  simp [fmtBranch, strftime, hbad]

theorem c2_witness :
    fmtCheck ("%" : String).data = false ∧
    call_tool "get_date_with_format" [("format", PyValue.str "%")] sampleTime =
      Except.ok [{ type := "text", text := "Error: Invalid format string - " ++ "Invalid format string" }] :=
  ⟨by decide,
    (c2_invalid_format_text [("format", PyValue.str "%")] sampleTime "%" rfl
      (by decide)).1⟩

/-- C3: the `try`/`except ValueError` in the `get_date_with_format`
handler swallows exactly the recoverable rendering fault, converting it
to text content; any other fault — here the `TypeError` raised when the
`"format"` value is not a string — propagates uncaught out of
`call_tool`. -/
theorem c3_fault_propagation :
    (∀ (args : List (String × PyValue)) (t : DateTime) (fmt : String),
      dictGet args "format" (PyValue.str defaultFmt) = PyValue.str fmt →
      fmtCheck fmt.data = false →
      call_tool "get_date_with_format" args t =
        Except.ok [{ type := "text", text := "Error: Invalid format string - " ++ "Invalid format string" }])
    ∧ (∀ (args : List (String × PyValue)) (t : DateTime) (v : PyValue),
        dictGet args "format" (PyValue.str defaultFmt) = v →
        isStr v = false →
        call_tool "get_date_with_format" args t =
          Except.error (PyExc.typeError
            ("strftime() argument 1 must be str, not " ++ pyTypeName v))) := by
  constructor
  · intro args t fmt hv hbad
    rw [call_tool_fmt args t, hv]
    simp [fmtBranch, strftime, hbad]
  · intro args t v hv hnot
    rw [call_tool_fmt args t, hv]
    cases v with
    | str s => simp [isStr] at hnot
    | int n => rfl
    | bool b => rfl
    | none => rfl

theorem c3_witness :
    call_tool "get_date_with_format" [("format", PyValue.str "%")] sampleTime =
      Except.ok [{ type := "text", text := "Error: Invalid format string - " ++ "Invalid format string" }]
    ∧ call_tool "get_date_with_format" [("format", PyValue.int 3)] sampleTime =
      Except.error (PyExc.typeError "strftime() argument 1 must be str, not int") := by
  constructor
  · exact c3_fault_propagation.1 [("format", PyValue.str "%")] sampleTime "%" rfl
      (by decide)
  · exact c3_fault_propagation.2 [("format", PyValue.int 3)] sampleTime
      (PyValue.int 3) rfl (by decide)

/-- C4: with `"format"` bound to `"%Y-%m-%d"` the result of
`get_date_with_format` matches `^\d\x7b4\x7d-\d\x7b2\x7d-\d\x7b2\x7d$`; with the key
absent the default pattern `"%Y-%m-%d %H:%M:%S"` is applied and the
result matches the corresponding date-time shape. -/
theorem c4_format_shapes (args : List (String × PyValue)) (t : DateTime)
    (hv : t.Valid) (hy : 1000 ≤ t.year) :
    (dictGet args "format" (PyValue.str defaultFmt) = PyValue.str "%Y-%m-%d" →
      ∃ s, call_tool "get_date_with_format" args t =
          Except.ok [{ type := "text", text := s }] ∧ isYMD s.data = true)
    ∧ (dictFind args "format" = Option.none →
      ∃ s, call_tool "get_date_with_format" args t =
          Except.ok [{ type := "text", text := s }] ∧ isYMDHMS s.data = true) := by
  obtain ⟨y, mo, d, h, mi, sec, us⟩ := t
  obtain ⟨b1, b2, b3, b4, b5, b6, b7, b8, b9, b10⟩ := hv
  simp only at b1 b2 b3 b4 b5 b6 b7 b8 b9 b10 hy
  constructor
  · intro hfmt
    rw [call_tool_fmt args _, hfmt]
    refine ⟨String.mk (renderFmt ("%Y-%m-%d" : String).data ⟨y, mo, d, h, mi, sec, us⟩),
      rfl, ?_⟩
    show isYMD (renderFmt ("%Y-%m-%d" : String).data ⟨y, mo, d, h, mi, sec, us⟩) = true
    rw [show renderFmt ("%Y-%m-%d" : String).data ⟨y, mo, d, h, mi, sec, us⟩ =
        natDec y ++ ('-' :: (pad2 mo ++ ('-' :: (pad2 d ++ [])))) from rfl]
    rw [natDec4 hy b2, pad2_eq (show mo < 100 by omega),
      pad2_eq (show d < 100 by omega)]
    simp [isYMD, digitChar_isDigit (show y / 1000 < 10 by omega),
      digitChar_isDigit (show y / 100 % 10 < 10 by omega),
      digitChar_isDigit (show y / 10 % 10 < 10 by omega),
      digitChar_isDigit (show y % 10 < 10 by omega),
      digitChar_isDigit (show mo / 10 < 10 by omega),
      digitChar_isDigit (show mo % 10 < 10 by omega),
      digitChar_isDigit (show d / 10 < 10 by omega),
      digitChar_isDigit (show d % 10 < 10 by omega)]
  · intro hnone
    rw [call_tool_fmt args _, dictGet_none hnone]
    refine ⟨String.mk (renderFmt defaultFmt.data ⟨y, mo, d, h, mi, sec, us⟩),
      rfl, ?_⟩
    show isYMDHMS (renderFmt defaultFmt.data ⟨y, mo, d, h, mi, sec, us⟩) = true
    rw [show renderFmt defaultFmt.data ⟨y, mo, d, h, mi, sec, us⟩ =
        natDec y ++ ('-' :: (pad2 mo ++ ('-' :: (pad2 d ++ (' ' :: (pad2 h ++ (':' :: (pad2 mi ++ (':' :: (pad2 sec ++ [])))))))))) from rfl]
    rw [natDec4 hy b2, pad2_eq (show mo < 100 by omega),
      pad2_eq (show d < 100 by omega), pad2_eq (show h < 100 by omega),
      pad2_eq (show mi < 100 by omega), pad2_eq (show sec < 100 by omega)]
    simp [isYMDHMS, digitChar_isDigit (show y / 1000 < 10 by omega),
      digitChar_isDigit (show y / 100 % 10 < 10 by omega),
      digitChar_isDigit (show y / 10 % 10 < 10 by omega),
      digitChar_isDigit (show y % 10 < 10 by omega),
      digitChar_isDigit (show mo / 10 < 10 by omega),
      digitChar_isDigit (show mo % 10 < 10 by omega),
      digitChar_isDigit (show d / 10 < 10 by omega),
      digitChar_isDigit (show d % 10 < 10 by omega),
      digitChar_isDigit (show h / 10 < 10 by omega),
      digitChar_isDigit (show h % 10 < 10 by omega),
      digitChar_isDigit (show mi / 10 < 10 by omega),
      digitChar_isDigit (show mi % 10 < 10 by omega),
      digitChar_isDigit (show sec / 10 < 10 by omega),
      digitChar_isDigit (show sec % 10 < 10 by omega)]

theorem c4_witness :
    sampleTime.Valid ∧ 1000 ≤ sampleTime.year
    ∧ (∃ s, call_tool "get_date_with_format"
          [("format", PyValue.str "%Y-%m-%d")] sampleTime =
          Except.ok [{ type := "text", text := s }] ∧ isYMD s.data = true)
    ∧ (∃ s, call_tool "get_date_with_format" [] sampleTime =
          Except.ok [{ type := "text", text := s }] ∧ isYMDHMS s.data = true) :=
  ⟨by decide, by decide,
    (c4_format_shapes [("format", PyValue.str "%Y-%m-%d")] sampleTime
      (by decide) (by decide)).1 rfl,
    (c4_format_shapes [] sampleTime (by decide) (by decide)).2 rfl⟩

/-- C5: `list_tools` is deterministic across calls within one run, and
its result is a non-empty descriptor sequence with pairwise distinct
names. -/
theorem c5_list_tools_stable :
    (∀ u v : Unit, list_tools u = list_tools v)
    ∧ list_tools () ≠ []
    ∧ ((list_tools ()).map Tool.name).Nodup :=
  ⟨fun _ _ => rfl, by decide, by decide⟩

/-- C6: every `get_current_date` invocation returns exactly one text
item: the fixed sentence lead-in followed by the clock reading rendered
in the long form (month name, 2-digit day, 4-digit year, 12-hour time
with AM/PM); the embedded timestamp is exactly the clock reading
truncated to minutes, so the format is the same on every call while the
time varies with the clock. -/
theorem c6_current_long_form (args : List (String × PyValue)) (t : DateTime)
    (hv : t.Valid) (hy : 1000 ≤ t.year) :
    ∃ s, call_tool "get_current_date" args t =
        Except.ok [{ type := "text", text := s }]
      ∧ embedTime s = some (t.year, t.month, t.day, t.hour, t.minute) :=
  ⟨"Current date and time: " ++ String.mk (renderFmt currentFmt.data t),
    call_tool_cur args t, embedTime_render t hv hy⟩

theorem c6_witness :
    sampleTime.Valid ∧
    ∃ s, call_tool "get_current_date" [] sampleTime =
        Except.ok [{ type := "text", text := s }]
      ∧ embedTime s = some (2026, 10, 12, 15, 30) :=
  ⟨by decide, c6_current_long_form [] sampleTime (by decide) (by decide)⟩

/-- C7: two successive `get_current_date` invocations under a
non-decreasing wall clock yield two long-form text items whose embedded
timestamps are non-decreasing. -/
theorem c7_monotone_timestamps (t1 t2 : DateTime)
    (args1 args2 : List (String × PyValue))
    (hv1 : t1.Valid) (hv2 : t2.Valid)
    (hy1 : 1000 ≤ t1.year) (hy2 : 1000 ≤ t2.year)
    (hmono : dtKey t1 ≤ dtKey t2) :
    ∃ s1 s2 k1 k2,
      call_tool "get_current_date" args1 t1 =
        Except.ok [{ type := "text", text := s1 }]
      ∧ call_tool "get_current_date" args2 t2 =
        Except.ok [{ type := "text", text := s2 }]
      ∧ embedTime s1 = some k1 ∧ embedTime s2 = some k2
      ∧ embKey k1 ≤ embKey k2 := by
  refine ⟨_, _, _, _, call_tool_cur args1 t1, call_tool_cur args2 t2,
    embedTime_render t1 hv1 hy1, embedTime_render t2 hv2 hy2, ?_⟩
  have e1 : embKey (t1.year, t1.month, t1.day, t1.hour, t1.minute) =
      dtKey t1 / 60 := by
    obtain ⟨_, _, _, _, _, _, _, _, hs, _⟩ := hv1
    simp only [embKey, dtKey]
    omega
  have e2 : embKey (t2.year, t2.month, t2.day, t2.hour, t2.minute) =
      dtKey t2 / 60 := by
    obtain ⟨_, _, _, _, _, _, _, _, hs, _⟩ := hv2
    simp only [embKey, dtKey]
    omega
  rw [e1, e2]
  exact Nat.div_le_div_right hmono

theorem c7_witness :
    dtKey sampleTime ≤ dtKey ⟨2026, 10, 12, 16, 0, 0, 0⟩ ∧
    ∃ s1 s2 k1 k2,
      call_tool "get_current_date" [] sampleTime =
        Except.ok [{ type := "text", text := s1 }]
      ∧ call_tool "get_current_date" [] ⟨2026, 10, 12, 16, 0, 0, 0⟩ =
        Except.ok [{ type := "text", text := s2 }]
      ∧ embedTime s1 = some k1 ∧ embedTime s2 = some k2
      ∧ embKey k1 ≤ embKey k2 :=
  ⟨by decide,
    c7_monotone_timestamps sampleTime ⟨2026, 10, 12, 16, 0, 0, 0⟩ [] []
      (by decide) (by decide) (by decide) (by decide) (by decide)⟩

/-- C8: the advertised schemas declare `additionalProperties = false`,
yet `call_tool` never rejects extra or missing argument properties: the
`get_date_with_format` result at a fixed clock reading depends only on
the value fetched for `"format"`, and a map without that key behaves
like one binding it to the default `"%Y-%m-%d %H:%M:%S"`. -/
theorem c8_depends_only_on_format :
    ((list_tools ()).map (fun d => d.inputSchema.additionalProperties) =
      [false, false])
    ∧ (∀ (t : DateTime) (args1 args2 : List (String × PyValue)),
        dictGet args1 "format" (PyValue.str defaultFmt) =
          dictGet args2 "format" (PyValue.str defaultFmt) →
        call_tool "get_date_with_format" args1 t =
          call_tool "get_date_with_format" args2 t)
    ∧ (∀ (t : DateTime) (args : List (String × PyValue)),
        dictFind args "format" = Option.none →
        call_tool "get_date_with_format" args t =
          call_tool "get_date_with_format"
            [("format", PyValue.str defaultFmt)] t) := by
  refine ⟨rfl, ?_, ?_⟩
  · intro t a1 a2 hagree
    rw [call_tool_fmt a1 t, call_tool_fmt a2 t, hagree]
  · intro t args hnone
    rw [call_tool_fmt args t, call_tool_fmt _ t, dictGet_none hnone]
    rfl

theorem c8_witness :
    dictGet [("verbose", PyValue.bool true)] "format" (PyValue.str defaultFmt) =
      dictGet [] "format" (PyValue.str defaultFmt)
    ∧ call_tool "get_date_with_format" [("verbose", PyValue.bool true)] sampleTime =
      call_tool "get_date_with_format" [] sampleTime
    ∧ dictFind [] "format" = Option.none
    ∧ call_tool "get_date_with_format" [] sampleTime =
      call_tool "get_date_with_format" [("format", PyValue.str defaultFmt)] sampleTime :=
  ⟨rfl, c8_depends_only_on_format.2.1 sampleTime _ _ rfl, rfl,
    c8_depends_only_on_format.2.2 sampleTime [] rfl⟩

/-- C9: whenever `call_tool` returns normally — for any tool name, known
or unknown, and any argument map — the returned value is a list of
exactly one content item whose kind is `"text"`. -/
theorem c9_single_text_item (name : String) (args : List (String × PyValue))
    (t : DateTime) (r : List TextContent)
    (h : call_tool name args t = Except.ok r) :
    r.length = 1 ∧ ∀ c ∈ r, c.type = "text" := by
  have shape : ∃ s, r = [{ type := "text", text := s }] := by
    unfold call_tool at h
    by_cases h1 : name = "get_current_date"
    · rw [if_pos h1] at h
      rw [show strftime currentFmt t =
          Except.ok (String.mk (renderFmt currentFmt.data t)) from rfl] at h
      simp only [Except.ok.injEq] at h
      exact ⟨_, h.symm⟩
    · rw [if_neg h1] at h
      by_cases h2 : name = "get_date_with_format"
      · rw [if_pos h2] at h
        exact fmtBranch_shape _ t r h
      · rw [if_neg h2] at h
        simp only [Except.ok.injEq] at h
        exact ⟨_, h.symm⟩
  obtain ⟨s, rfl⟩ := shape
  refine ⟨rfl, ?_⟩
  intro c hc
  simp only [List.mem_singleton] at hc
  rw [hc]

theorem c9_witness :
    call_tool "nope" [] sampleTime =
      Except.ok [{ type := "text", text := "Error: Unknown tool \x27nope\x27" }]
    ∧ ([{ type := "text", text := "Error: Unknown tool \x27nope\x27" }] :
        List TextContent).length = 1
    ∧ ∀ c ∈ ([{ type := "text", text := "Error: Unknown tool \x27nope\x27" }] :
        List TextContent), c.type = "text" := by
  refine ⟨rfl, ?_, ?_⟩
  · exact (c9_single_text_item "nope" [] sampleTime _ rfl).1
  · exact (c9_single_text_item "nope" [] sampleTime _ rfl).2

/-- C10: the `get_current_date` result never reads the argument map: any
two argument maps yield equal results at the same clock reading, and the
call returns normally regardless of the arguments. -/
theorem c10_current_ignores_args (args1 args2 : List (String × PyValue))
    (t : DateTime) :
    call_tool "get_current_date" args1 t = call_tool "get_current_date" args2 t
    ∧ ∃ r, call_tool "get_current_date" args1 t = Except.ok r :=
  ⟨rfl, ⟨_, call_tool_cur args1 t⟩⟩

end McpDateServer
